import Mathlib

/-
Verification of the process-executor core and dialog command assembly of
portable-file-dialogs (src/portable-file-dialogs.h), POSIX branch.

The executor's interaction with the operating system (non-blocking reads
from the popen pipe, the pclose exit status, popen success or failure) is
represented by explicit inputs: a list of read outcomes, a pclose return
value, and an optional stream handle for popen.
-/

namespace PFD

/-- Models `pfd::buttons` (src/portable-file-dialogs.h lines 36-42). -/
inductive Buttons
| ok
| ok_cancel
| yes_no
| yes_no_cancel
deriving DecidableEq

/-- Models `pfd::icon` (src/portable-file-dialogs.h lines 44-50). -/
inductive Icon
| info
| warning
| error
| question
deriving DecidableEq

/-- Models `executor::state` (line 176): `idle`, `running`, `finished`. -/
inductive EState
| idle
| running
| finished
deriving DecidableEq

/-- Outcome of one non-blocking `read()` on the executor's pipe (lines 135-144):
`again` models `received == -1 && errno == EAGAIN`; `data chunk` models
`received > 0` with `chunk` the bytes read (nonempty in reality, though no
result below depends on that); `eof` models end-of-stream
(`received == 0`, or an error other than `EAGAIN`). -/
inductive ReadEvent
| again
| data (chunk : String)
| eof
deriving DecidableEq

/-- Models the mutable fields of `pfd::internal::executor` (lines 175-184).
`m_stream` is the ownership of the `popen` stream (`some handle` while the
executor owns a subprocess stream, `none` once `pclose` has released it or
when none was ever opened). -/
structure Executor where
  m_state : EState
  m_result : String
  m_exit_code : Int
  m_stream : Option Nat
deriving DecidableEq

/-- Environment of one forced drain: the successive outcomes the
non-blocking reads observe, and the value `pclose` returns. -/
structure RunEnv where
  evs : List ReadEvent
  pclose_code : Int
deriving DecidableEq

/-- Models `executor::ready()` (lines 126-148), POSIX branch: if the state is
not `running` it returns `true` at once; otherwise one non-blocking read is
made, whose outcome is the `ReadEvent` argument. Returns the updated
executor and the boolean result. -/
def readyStep (e : Executor) (ev : ReadEvent) : Executor × Bool :=
  if e.m_state ≠ EState.running then (e, true)
  else
    match ev with
    | ReadEvent.again => (e, false)
    | ReadEvent.data chunk => ({ e with m_result := e.m_result ++ chunk }, false)
    | ReadEvent.eof => ({ e with m_state := EState.finished }, true)

/-- Models the `while (!ready()) sleep` loop of `executor::stop()`
(lines 155-156): `ready` is called repeatedly, each call when running
consuming the next read outcome, until it returns `true`. `none` models a
loop that never exits (the event list is exhausted while still running). -/
def drainLoop : Executor → List ReadEvent → Option Executor
| e, [] => if e.m_state ≠ EState.running then some e else none
| e, ev :: rest =>
  if e.m_state ≠ EState.running then some e
  else
    match readyStep e ev with
    | (e1, b) => if b then some e1 else drainLoop e1 rest

/-- Models `executor::stop()` (lines 150-168), POSIX branch: no-op when idle;
otherwise drain until `ready()` is true, set `m_exit_code` from `pclose`,
release the stream, and reset the state to idle. -/
def stop (e : Executor) (env : RunEnv) : Option Executor :=
  if e.m_state = EState.idle then some e
  else
    (drainLoop e env.evs).map (fun e1 =>
      { e1 with m_exit_code := env.pclose_code,
                m_state := EState.idle, m_stream := none })

/-- Models `executor::start(command)` (lines 88-115), POSIX branch: stop the
prior run, clear `m_result`, reset `m_exit_code` to `-1`, then `popen` the
command. `launch = none` models `popen` returning null (early return, state
stays idle); `launch = some h` models a successful launch with stream `h`,
after which the state becomes running. -/
def start (e : Executor) (env : RunEnv) (launch : Option Nat) : Option Executor :=
  (stop e env).map (fun e1 =>
    match launch with
    | none => { e1 with m_result := "", m_exit_code := -1 }
    | some h => { e1 with m_result := "", m_exit_code := -1,
                          m_state := EState.running, m_stream := some h })

/-- Models `executor::result(&exit_code)` (lines 80-86): `stop()`, then
return the accumulated output, also exposing the exit code written through
the out-parameter. Returns the post-state together with the two values. -/
def result (e : Executor) (env : RunEnv) : Option (Executor × String × Int) :=
  (stop e env).map (fun e1 => (e1, e1.m_result, e1.m_exit_code))

/-- A freshly constructed executor (member initializers, lines 176-183). -/
def emptyExecutor : Executor :=
  { m_state := EState.idle, m_result := "", m_exit_code := -1, m_stream := none }

/-- Concrete idle executor used by witnesses. -/
def execIdle : Executor := emptyExecutor

/-- Concrete running executor used by witnesses. -/
def execRunning : Executor :=
  { m_state := EState.running, m_result := "ab", m_exit_code := -1, m_stream := some 3 }

/-- Concrete finished executor used by witnesses. -/
def execFinished : Executor :=
  { m_state := EState.finished, m_result := "out", m_exit_code := -1, m_stream := some 3 }

/-- Concrete finished executor with other output, used by witnesses. -/
def execFinishedXyz : Executor :=
  { m_state := EState.finished, m_result := "xyz", m_exit_code := -1, m_stream := some 4 }

/-- Models the flag array of `pfd::internal::dialog` (lines 215-224 and
239-243): the verbosity toggle and the four helper-presence flags. -/
structure DialogFlags where
  is_verbose : Bool
  has_zenity : Bool
  has_matedialog : Bool
  has_qarma : Bool
  has_kdialog : Bool
deriving DecidableEq

/-- Models `dialog::is_zenity()` (lines 226-231). -/
def is_zenity (f : DialogFlags) : Bool :=
  f.has_zenity || f.has_matedialog || f.has_qarma

/-- Models `dialog::is_kdialog()` (lines 233-236). -/
def is_kdialog (f : DialogFlags) : Bool :=
  f.has_kdialog

/-- Models `dialog::desktop_helper()` (lines 253-260). -/
def desktop_helper (f : DialogFlags) : String :=
  if f.has_zenity then "zenity"
  else if f.has_matedialog then "matedialog"
  else if f.has_qarma then "qarma"
  else if f.has_kdialog then "kdialog"
  else "echo"

/-- Models `dialog::buttons_to_name` (lines 262-271). -/
def buttons_to_name (b : Buttons) : String :=
  match b with
  | Buttons.ok_cancel => "okcancel"
  | Buttons.yes_no => "yesno"
  | Buttons.yes_no_cancel => "yesnocancel"
  | Buttons.ok => "ok"

/-- Models `dialog::get_icon_name` (lines 273-288), POSIX branch (`info`
maps to `"information"`). -/
def get_icon_name (ic : Icon) : String :=
  match ic with
  | Icon.warning => "warning"
  | Icon.error => "error"
  | Icon.question => "question"
  | Icon.info => "information"

/-- Models the effect of `std::regex_replace(str, std::regex("'"), "'\\''")`
inside `dialog::shell_quote` (line 301): every single quote becomes the
four-character sequence quote, backslash, quote, quote. -/
def escSQ : List Char → List Char
  | [] => []
  | c :: rest =>
    if c = '\x27' then '\x27' :: '\\' :: '\x27' :: '\x27' :: escSQ rest
    else c :: escSQ rest

/-- Models `dialog::shell_quote` (lines 299-302): wrap in single quotes,
replacing each embedded single quote as `escSQ` does. -/
def shell_quote (s : String) : String :=
  "\x27" ++ String.mk (escSQ s.data) ++ "\x27"

/-- Models the effect of `std::regex_replace(str, std::regex("['\"]"), "$&$&")`
inside `dialog::powershell_quote` (line 295): every single or double quote
is doubled. -/
def escPS : List Char → List Char
  | [] => []
  | c :: rest =>
    if c = '\x27' ∨ c = '"' then c :: c :: escPS rest
    else c :: escPS rest

/-- Models `dialog::powershell_quote` (lines 293-296): wrap in single
quotes, doubling each embedded quote character as `escPS` does. -/
def powershell_quote (s : String) : String :=
  "\x27" ++ String.mk (escPS s.data) ++ "\x27"

/-- Modelled from the spec: the "POSIX shell context" that `shell_quote`
targets (spec §4.2); the shell interpreter itself is not part of this
repository. These characters carry a special meaning to the shell when
they appear outside quotes (the byte 96 is the backquote). -/
def shellSpecial (c : Char) : Bool :=
  c = ' ' || c = '\t' || c = '\n' || c = '"' || c = '$' || c = Char.ofNat 96 ||
  c = ';' || c = '&' || c = '|' || c = '<' || c = '>' || c = '(' || c = ')' ||
  c = '*' || c = '?' || c = '[' || c = ']' || c = '#' || c = '~'

mutual

/-- Modelled from the spec: POSIX shell reading of one word outside quotes
(the "target command interpreter" of spec §8); the interpreter is not part
of this repository. A backslash escapes the next character, a single quote
opens a quoted section, and an unquoted metacharacter is rejected because
the shell would not read it as literal text. Returns the literal text the
shell reads, or `none`. -/
def shUnquote : List Char → Option (List Char)
  | [] => some []
  | c :: rest =>
    if c = '\x27' then shUnquoteSQ rest
    else if c = '\\' then shEscaped rest
    else if shellSpecial c then none
    else (shUnquote rest).map (fun t => c :: t)

/-- Modelled from the spec: POSIX shell reading right after an unquoted
backslash — the next character is literal; a trailing backslash is
rejected. -/
def shEscaped : List Char → Option (List Char)
  | [] => none
  | d :: rest => (shUnquote rest).map (fun t => d :: t)

/-- Modelled from the spec: POSIX shell reading inside a single-quoted
section — every character up to the closing quote is literal. -/
def shUnquoteSQ : List Char → Option (List Char)
  | [] => none
  | c :: rest =>
    if c = '\x27' then shUnquote rest
    else (shUnquoteSQ rest).map (fun t => c :: t)

end

mutual

/-- Modelled from the spec: PowerShell reading inside a single-quoted
string literal (the "scripting-host context" of spec §4.2); the
interpreter is not part of this repository. A doubled single quote stands
for one single quote, any other character is literal, and the closing
quote must end the token. -/
def psUnquoteSQ : List Char → Option (List Char)
  | [] => none
  | c :: rest =>
    if c = '\x27' then psQuoteSeen rest
    else (psUnquoteSQ rest).map (fun t => c :: t)

/-- Modelled from the spec: PowerShell reading right after a single quote
inside a single-quoted string — end of input closes the string, a second
quote stands for one literal quote, and anything else after the closing
quote is rejected. -/
def psQuoteSeen : List Char → Option (List Char)
  | [] => some []
  | d :: rest =>
    if d = '\x27' then (psUnquoteSQ rest).map (fun t => '\x27' :: t)
    else none

end

/-- Modelled from the spec: a PowerShell token read as one single-quoted
string literal spanning the whole token. -/
def psUnquote : List Char → Option (List Char)
  | [] => none
  | c :: rest => if c = '\x27' then psUnquoteSQ rest else none

/-- Boolean prefix test on character lists. -/
def startsWithList : List Char → List Char → Bool
  | [], _ => true
  | _ :: _, [] => false
  | a :: as, b :: bs => a == b && startsWithList as bs

/-- Boolean substring test on character lists. -/
def containsList (n : List Char) : List Char → Bool
  | [] => startsWithList n []
  | c :: rest => startsWithList n (c :: rest) || containsList n rest

/-- Boolean substring test on strings. -/
def strContains (n s : String) : Bool :=
  containsList n.data s.data

/-- Runs `executor(command).result(&exit_code)` as `dialog::execute` does
(line 250): a fresh executor is started and immediately drained. The
launch outcome and the drain environment are explicit inputs. -/
def runCommand (env : RunEnv) (launch : Option Nat) : Option (String × Int) :=
  match start emptyExecutor env launch with
  | none => none
  | some e1 => (result e1 env).map (fun p => (p.2.1, p.2.2))

/-- Models `dialog::execute` (lines 245-251): the triple of the diagnostic
lines written to `std::cerr`, the command string handed to the executor,
and the output/exit-code pair the executor reports. -/
def execute (f : DialogFlags) (command : String) (env : RunEnv)
    (launch : Option Nat) : List String × String × Option (String × Int) :=
  ((if f.is_verbose then ["pfd: " ++ command] else []), command,
    runCommand env launch)

/-- Models `dialog::check_program` (lines 312-321), POSIX branch: runs
`which <program> 2>/dev/null` through `execute` and compares the reported
exit code with 0. `probe` gives each probe command's run environment and
launch outcome; the result is `none` when the probe's drain never
finishes. -/
def check_program (f : DialogFlags) (probe : String → RunEnv × Option Nat)
    (program : String) : Option Bool :=
  let cmd := "which " ++ program ++ " 2>/dev/null"
  ((execute f cmd (probe cmd).1 (probe cmd).2).2.2).map (fun p => p.2 == 0)

/-- Models the probe loop of the `dialog` constructor (lines 200-213):
the presence flag of each known helper is recorded from `check_program`,
in the fixed order zenity, matedialog, qarma, kdialog. -/
def scanFlags (verbose : Bool) (probe : String → RunEnv × Option Nat) :
    Option DialogFlags :=
  let f0 : DialogFlags := ⟨verbose, false, false, false, false⟩
  match check_program f0 probe "zenity", check_program f0 probe "matedialog",
        check_program f0 probe "qarma", check_program f0 probe "kdialog" with
  | some z, some m, some q, some k => some ⟨verbose, z, m, q, k⟩
  | _, _, _, _ => none

/-- Models the command string assembled by `pfd::message::message`
(lines 460-543), POSIX branch. -/
def messageCommand (f : DialogFlags) (title text : String) (b : Buttons)
    (ic : Icon) : String :=
  let command := desktop_helper f
  if is_zenity f then
    let command := command ++
      (match b with
       | Buttons.ok_cancel => " --question --ok-label=OK --cancel-label=Cancel"
       | Buttons.yes_no => " --question"
       | Buttons.yes_no_cancel =>
         " --list --column \x27\x27 --hide-header \x27Yes\x27 \x27No\x27"
       | Buttons.ok =>
         match ic with
         | Icon.error => " --error"
         | Icon.warning => " --warning"
         | _ => " --info")
    command ++ " --title " ++ shell_quote title ++
      " --width 300 --height 0" ++ " --text " ++ shell_quote text ++
      " --icon-name=dialog-" ++ get_icon_name ic
  else if is_kdialog f then
    let command :=
      if b = Buttons.ok then
        command ++
          (match ic with
           | Icon.error => " --error"
           | Icon.warning => " --sorry"
           | _ => " --msgbox")
      else
        command ++ " --" ++
          (if ic = Icon.warning ∨ ic = Icon.error then "warning" else "") ++
          "yesno" ++
          (if b = Buttons.yes_no_cancel then "cancel" else "")
    let command := command ++ " " ++ shell_quote text ++
      " --title " ++ shell_quote title
    if b = Buttons.ok_cancel then command ++ " --yes-label OK --no-label Cancel"
    else command
  else command

/-- Models the observable effect of the `pfd::message::message` constructor
(lines 460-543), POSIX branch: the diagnostic lines it writes to
`std::cerr` (none — the constructor calls `m_async.start(command)` without
going through `execute`) and the command it starts. -/
def messageStart (f : DialogFlags) (title text : String) (b : Buttons)
    (ic : Icon) : List String × String :=
  ([], messageCommand f title text b ic)

/-- Models the command string assembled by `pfd::notify::notify`
(lines 414-454), POSIX branch, including the coercion of the `question`
icon to `info` at the top of the constructor (lines 418-419). -/
def notifyCommand (f : DialogFlags) (title message : String) (ic : Icon) :
    String :=
  let ic := if ic = Icon.question then Icon.info else ic
  let command := desktop_helper f
  if is_zenity f then
    command ++ " --notification" ++ " --window-icon " ++ get_icon_name ic ++
      " --text " ++ shell_quote (title ++ "\n" ++ message)
  else if is_kdialog f then
    command ++ " --icon " ++ get_icon_name ic ++ " --title " ++
      shell_quote title ++ " --passivepopup " ++ shell_quote message ++ " 5"
  else command

/-- Models the observable effect of the `pfd::notify::notify` constructor
(lines 414-454), POSIX branch: no diagnostic output (the constructor calls
`m_async.start(command)` directly) and the command it starts. -/
def notifyStart (f : DialogFlags) (title message : String) (ic : Icon) :
    List String × String :=
  ([], notifyCommand f title message ic)

/-- Models `file_dialog::type` (line 331). -/
inductive FDType
| open_
| save
| folder
deriving DecidableEq

/-- Models the command string assembled by
`pfd::internal::file_dialog::file_dialog` (lines 333-392), POSIX branch:
file-selection arguments are appended only under `is_zenity()`; otherwise
the command stays the bare helper name. -/
def fileDialogCommand (f : DialogFlags) (ty : FDType)
    (title default_path filter : String) (multiselect : Bool) : String :=
  let command := desktop_helper f
  if is_zenity f then
    let command := command ++ " --file-selection --filename=" ++
      shell_quote default_path ++ " --title " ++ shell_quote title ++
      " --file-filter=" ++ shell_quote filter ++
      (if multiselect then " --multiple" else "")
    if ty = FDType.save then command ++ " --save" else command
  else command

/-- Models the observable effect of the `file_dialog` constructor
(lines 333-392), POSIX branch: no diagnostic output (the constructor calls
`m_async.start(command)` directly) and the command it starts. -/
def fileDialogStart (f : DialogFlags) (ty : FDType)
    (title default_path filter : String) (multiselect : Bool) :
    List String × String :=
  ([], fileDialogCommand f ty title default_path filter multiselect)

/-- Concrete flag set with only zenity detected, used by witnesses. -/
def zenityFlags : DialogFlags := ⟨false, true, false, false, false⟩

/-- Concrete flag set with only zenity detected and verbosity on, used by
witnesses. -/
def verboseZenityFlags : DialogFlags := ⟨true, true, false, false, false⟩

/-- Concrete flag set with only kdialog detected, used by witnesses. -/
def kdialogFlags : DialogFlags := ⟨false, false, false, false, true⟩

/-- Concrete flag set with no helper detected, used by witnesses. -/
def noHelperFlags : DialogFlags := ⟨false, false, false, false, false⟩

/-- Concrete probe whose every command exits with status 1, used by
witnesses. -/
def probeAllFail : String → RunEnv × Option Nat :=
  fun _ => ({ evs := [ReadEvent.eof], pclose_code := 1 }, some 5)

/-- C1: ready() returns true immediately when not running; when running, the
single non-blocking read either appends available data to the output buffer
(returning false), reports no data while the process lives (returning
false), or signals end-of-stream, moving the state to finished and
returning true. -/
theorem ready_spec (e : Executor) :
    (e.m_state ≠ EState.running → ∀ ev : ReadEvent, readyStep e ev = (e, true)) ∧
    (e.m_state = EState.running →
      readyStep e ReadEvent.again = (e, false) ∧
      (∀ chunk : String,
        readyStep e (ReadEvent.data chunk) =
          ({ e with m_result := e.m_result ++ chunk }, false)) ∧
      readyStep e ReadEvent.eof = ({ e with m_state := EState.finished }, true)) := by
  constructor
  · intro h ev
    simp [readyStep, h]
  · intro h
    refine ⟨?_, ?_, ?_⟩ <;> simp [readyStep, h]

/-- Witness for `ready_spec` at concrete executors and events. -/
theorem ready_spec_witness :
    readyStep execIdle ReadEvent.eof = (execIdle, true) ∧
    readyStep execRunning ReadEvent.eof =
      ({ execRunning with m_state := EState.finished }, true) := by
  constructor
  · exact (ready_spec execIdle).1 (by decide) ReadEvent.eof
  · exact ((ready_spec execRunning).2 rfl).2.2

/-- Helper: `stop` on an idle executor is a no-op. -/
theorem stop_idle (e : Executor) (env : RunEnv) (h : e.m_state = EState.idle) :
    stop e env = some e := by
  simp [stop, h]

/-- Helper: whenever `stop` returns an executor, its state is idle. -/
theorem stop_state (e : Executor) (env : RunEnv) (e1 : Executor)
    (h : stop e env = some e1) : e1.m_state = EState.idle := by
  by_cases hid : e.m_state = EState.idle
  · rw [stop_idle e env hid] at h
    cases h
    exact hid
  · unfold stop at h
    rw [if_neg hid, Option.map_eq_some'] at h
    rcases h with ⟨e2, _, h2⟩
    rw [← h2]

/-- Helper: when `stop` acts on a non-idle executor, the stream is released. -/
theorem stop_stream (e : Executor) (env : RunEnv) (e1 : Executor)
    (hne : e.m_state ≠ EState.idle) (h : stop e env = some e1) :
    e1.m_stream = none := by
  unfold stop at h
  rw [if_neg hne, Option.map_eq_some'] at h
  rcases h with ⟨e2, _, h2⟩
  rw [← h2]

/-- C2: starting a command on a running or finished executor first performs
the full synchronous stop of the prior subprocess (releasing its stream),
then clears the output buffer and resets the exit code, and only then
launches the new child; the new executor's only stream is the one produced
by the new launch. -/
theorem start_releases_then_launches (e : Executor) (env : RunEnv)
    (launch : Option Nat) (e' : Executor)
    (hne : e.m_state ≠ EState.idle) (h : start e env launch = some e') :
    ∃ e1, stop e env = some e1 ∧ e1.m_state = EState.idle ∧ e1.m_stream = none ∧
      (launch = none → e' = { e1 with m_result := "", m_exit_code := -1 }) ∧
      (∀ hd : Nat, launch = some hd →
        e' = { e1 with m_result := "", m_exit_code := -1,
                       m_state := EState.running, m_stream := some hd }) ∧
      e'.m_stream = launch := by
  unfold start at h
  rcases hs : stop e env with _ | e1 <;> rw [hs] at h
  · simp at h
  · rw [Option.map_some'] at h
    have hstream := stop_stream e env e1 hne hs
    refine ⟨e1, rfl, stop_state e env e1 hs, hstream, ?_, ?_, ?_⟩
    · intro hl
      subst hl
      exact (Option.some.inj h).symm
    · intro hd hl
      subst hl
      exact (Option.some.inj h).symm
    · cases launch with
      | none =>
        rw [← Option.some.inj h]
        simpa using hstream
      | some hd =>
        rw [← Option.some.inj h]

/-- Witness for `start_releases_then_launches` at a concrete finished
executor, launching a new stream. -/
theorem start_releases_then_launches_witness :
    ∃ e1, stop execFinished { evs := [], pclose_code := 7 } = some e1 ∧
      e1.m_state = EState.idle ∧ e1.m_stream = none ∧
      ((some 9 : Option Nat) = none →
        ({ m_state := EState.running, m_result := "", m_exit_code := -1,
           m_stream := some 9 } : Executor) =
          { e1 with m_result := "", m_exit_code := -1 }) ∧
      (∀ hd : Nat, (some 9 : Option Nat) = some hd →
        ({ m_state := EState.running, m_result := "", m_exit_code := -1,
           m_stream := some 9 } : Executor) =
          { e1 with m_result := "", m_exit_code := -1,
                    m_state := EState.running, m_stream := some hd }) ∧
      ({ m_state := EState.running, m_result := "", m_exit_code := -1,
         m_stream := some 9 } : Executor).m_stream = some 9 :=
  start_releases_then_launches execFinished { evs := [], pclose_code := 7 }
    (some 9)
    { m_state := EState.running, m_result := "", m_exit_code := -1, m_stream := some 9 }
    (by decide) (by decide)

/-- C3: `result` forces completion via `stop`, returns the accumulated
output buffer together with the exit code, and is idempotent: any further
call, under any environment, returns the identical output and exit code. -/
theorem result_idempotent (e : Executor) (env : RunEnv) (e1 : Executor)
    (out : String) (code : Int) (h : result e env = some (e1, out, code)) :
    out = e1.m_result ∧ code = e1.m_exit_code ∧
      ∀ env' : RunEnv, result e1 env' = some (e1, out, code) := by
  unfold result at h
  rcases hs : stop e env with _ | e2 <;> rw [hs] at h
  · simp at h
  · rw [Option.map_some'] at h
    simp only [Option.some.injEq, Prod.mk.injEq] at h
    obtain ⟨he, hout, hcode⟩ := h
    subst he
    subst hout
    subst hcode
    refine ⟨rfl, rfl, ?_⟩
    intro env'
    unfold result
    rw [stop_idle e2 env' (stop_state e env e2 hs), Option.map_some']

/-- Witness for `result_idempotent`: a finished executor is drained once,
and a second call with a different environment returns the same values. -/
theorem result_idempotent_witness :
    result { m_state := EState.idle, m_result := "xyz", m_exit_code := 5,
             m_stream := none }
           { evs := [ReadEvent.data "junk"], pclose_code := 9 } =
      some ({ m_state := EState.idle, m_result := "xyz", m_exit_code := 5,
              m_stream := none }, "xyz", 5) :=
  (result_idempotent execFinishedXyz { evs := [], pclose_code := 5 }
    { m_state := EState.idle, m_result := "xyz", m_exit_code := 5, m_stream := none }
    "xyz" 5 (by decide)).2.2
    { evs := [ReadEvent.data "junk"], pclose_code := 9 }

/-- C7: a failed launch leaves the executor idle with empty output and the
sentinel exit code `-1`, with no structured error raised; observing it via
`result` yields `("", -1)`, exactly what a successfully launched process
that immediately signals end-of-stream with `pclose` status `-1` yields —
the two are indistinguishable through the executor's interface. -/
theorem start_failure_semantics (e : Executor) (env : RunEnv) (e' : Executor)
    (h : start e env none = some e') :
    (e'.m_state = EState.idle ∧ e'.m_result = "" ∧ e'.m_exit_code = -1) ∧
    (∀ env2 : RunEnv, result e' env2 = some (e', "", -1)) ∧
    (∀ (hd : Nat) (e'' : Executor), start e env (some hd) = some e'' →
      result e'' { evs := [ReadEvent.eof], pclose_code := -1 } =
        some ({ e'' with m_state := EState.idle, m_stream := none,
                         m_exit_code := -1 }, "", -1)) := by
  unfold start at h
  rcases hs : stop e env with _ | e1 <;> rw [hs] at h
  · simp at h
  · rw [Option.map_some'] at h
    cases h
    have hst : ({ e1 with m_result := "", m_exit_code := -1 } : Executor).m_state
        = EState.idle := stop_state e env e1 hs
    refine ⟨⟨hst, rfl, rfl⟩, ?_, ?_⟩
    · intro env2
      unfold result
      rw [stop_idle _ env2 hst, Option.map_some']
    · intro hd e'' h2
      unfold start at h2
      rw [hs, Option.map_some'] at h2
      cases h2
      unfold result stop
      simp [drainLoop, readyStep]

/-- Witness for `start_failure_semantics` at a concrete idle executor. -/
theorem start_failure_semantics_witness :
    result execIdle { evs := [], pclose_code := 3 } = some (execIdle, "", -1) :=
  (start_failure_semantics execIdle { evs := [], pclose_code := 0 } execIdle
    (by decide)).2.1 { evs := [], pclose_code := 3 }

/-- Helper: `shUnquote` step for an opening quote. -/
theorem shUnquote_quote (rest : List Char) :
    shUnquote ('\x27' :: rest) = shUnquoteSQ rest := by
  simp [shUnquote]

/-- Helper: `shUnquote` step for a backslash escape. -/
theorem shUnquote_backslash (d : Char) (rest : List Char) :
    shUnquote ('\\' :: d :: rest) = (shUnquote rest).map (fun t => d :: t) := by
  simp [shUnquote, shEscaped]

/-- Helper: `shUnquoteSQ` step for the closing quote. -/
theorem shUnquoteSQ_quote (rest : List Char) :
    shUnquoteSQ ('\x27' :: rest) = shUnquote rest := by
  simp [shUnquoteSQ]

/-- Helper: `shUnquoteSQ` step for an ordinary character. -/
theorem shUnquoteSQ_other (c : Char) (rest : List Char) (h : c ≠ '\x27') :
    shUnquoteSQ (c :: rest) = (shUnquoteSQ rest).map (fun t => c :: t) := by
  simp [shUnquoteSQ, h]

/-- Helper: `escSQ` step for a single quote. -/
theorem escSQ_quote (rest : List Char) :
    escSQ ('\x27' :: rest) = '\x27' :: '\\' :: '\x27' :: '\x27' :: escSQ rest := by
  simp [escSQ]

/-- Helper: `escSQ` step for any other character. -/
theorem escSQ_other (c : Char) (rest : List Char) (h : c ≠ '\x27') :
    escSQ (c :: rest) = c :: escSQ rest := by
  simp [escSQ, h]

/-- Helper: the shell reads an `escSQ`-escaped section inside single quotes
back literally, continuing after the closing quote. -/
theorem shUnquoteSQ_escSQ (xs rest : List Char) :
    shUnquoteSQ (escSQ xs ++ '\x27' :: rest) =
      (shUnquote rest).map (fun t => xs ++ t) := by
  induction xs with
  | nil =>
    rw [show escSQ [] = [] from rfl, List.nil_append, shUnquoteSQ_quote]
    cases h : shUnquote rest <;> simp
  | cons c cs ih =>
    by_cases hc : c = '\x27'
    · subst hc
      rw [escSQ_quote, List.cons_append, List.cons_append, List.cons_append,
          List.cons_append, shUnquoteSQ_quote, shUnquote_backslash,
          shUnquote_quote, ih, Option.map_map]
      cases h : shUnquote rest <;> simp
    · rw [escSQ_other c cs hc, List.cons_append, shUnquoteSQ_other c _ hc, ih,
          Option.map_map]
      cases h : shUnquote rest <;> simp

/-- Helper: `psUnquoteSQ` step for a quote. -/
theorem psUnquoteSQ_quote (rest : List Char) :
    psUnquoteSQ ('\x27' :: rest) = psQuoteSeen rest := by
  simp [psUnquoteSQ]

/-- Helper: `psUnquoteSQ` step for an ordinary character. -/
theorem psUnquoteSQ_other (c : Char) (rest : List Char) (h : c ≠ '\x27') :
    psUnquoteSQ (c :: rest) = (psUnquoteSQ rest).map (fun t => c :: t) := by
  simp [psUnquoteSQ, h]

/-- Helper: `psQuoteSeen` step for a second quote. -/
theorem psQuoteSeen_quote (rest : List Char) :
    psQuoteSeen ('\x27' :: rest) = (psUnquoteSQ rest).map (fun t => '\x27' :: t) := by
  simp [psQuoteSeen]

/-- Helper: `escPS` step for a quote character. -/
theorem escPS_quote (c : Char) (rest : List Char) (h : c = '\x27' ∨ c = '"') :
    escPS (c :: rest) = c :: c :: escPS rest := by
  simp [escPS, h]

/-- Helper: `escPS` step for any other character. -/
theorem escPS_other (c : Char) (rest : List Char) (h : ¬(c = '\x27' ∨ c = '"')) :
    escPS (c :: rest) = c :: escPS rest := by
  simp [escPS, h]

/-- Helper: PowerShell reads an `escPS`-escaped section back literally when
the original text holds no double quote. -/
theorem psUnquoteSQ_escPS (xs : List Char) (hq : '"' ∉ xs) :
    psUnquoteSQ (escPS xs ++ ['\x27']) = some xs := by
  induction xs with
  | nil =>
    rw [show escPS [] = [] from rfl, List.nil_append, psUnquoteSQ_quote]
    simp [psQuoteSeen]
  | cons c cs ih =>
    have hq2 : '"' ∉ cs := fun h => hq (List.mem_cons_of_mem c h)
    have hcq : c ≠ '"' := fun h => hq (h ▸ List.mem_cons_self c cs)
    by_cases hc : c = '\x27'
    · subst hc
      rw [escPS_quote '\x27' cs (Or.inl rfl), List.cons_append, List.cons_append,
          psUnquoteSQ_quote, psQuoteSeen_quote, ih hq2]
      rfl
    · rw [escPS_other c cs (by tauto), List.cons_append, psUnquoteSQ_other c _ hc,
          ih hq2]
      rfl

/-- C4 counterexample: on the one-character string consisting of a double
quote, `powershell_quote` doubles the character, and PowerShell reads the
result back as two double quotes — not as the original string. -/
theorem powershell_quote_not_roundtrip :
    psUnquote (powershell_quote "\"").data = some ['"', '"'] ∧
    some ['"', '"'] ≠ some ("\"".data) := by
  constructor
  · decide
  · decide

/-- C4 as amended: `shell_quote` round-trips through the POSIX shell for
every string, including strings with single quotes, double quotes, or
both; `powershell_quote` round-trips through PowerShell's single-quoted
string syntax for every string that holds no double-quote character. -/
theorem quote_roundtrip :
    (∀ s : String, shUnquote (shell_quote s).data = some s.data) ∧
    (∀ s : String, '"' ∉ s.data →
      psUnquote (powershell_quote s).data = some s.data) := by
  constructor
  · intro s
    have hdata : (shell_quote s).data = '\x27' :: (escSQ s.data ++ ['\x27']) := by
      simp [shell_quote, String.data_append]
    rw [hdata, shUnquote_quote, shUnquoteSQ_escSQ s.data []]
    simp [shUnquote]
  · intro s hq
    have hdata : (powershell_quote s).data = '\x27' :: (escPS s.data ++ ['\x27']) := by
      simp [powershell_quote, String.data_append]
    rw [hdata, show ∀ l, psUnquote ('\x27' :: l) = psUnquoteSQ l from fun l => by
          simp [psUnquote],
        psUnquoteSQ_escPS s.data hq]

/-- Witness for `quote_roundtrip` on concrete strings with embedded
quotes. -/
theorem quote_roundtrip_witness :
    shUnquote (shell_quote "a\x27b\"c").data = some "a\x27b\"c".data ∧
    psUnquote (powershell_quote "a\x27b").data = some "a\x27b".data :=
  ⟨quote_roundtrip.1 "a\x27b\"c", quote_roundtrip.2 "a\x27b" (by decide)⟩

/-- Helper: a prefix of a list is also a prefix of any right extension. -/
theorem startsWithList_extend (n xs ys : List Char)
    (h : startsWithList n xs = true) : startsWithList n (xs ++ ys) = true := by
  induction n generalizing xs with
  | nil => simp [startsWithList]
  | cons a as ih =>
    cases xs with
    | nil => simp [startsWithList] at h
    | cons b bs =>
      rw [List.cons_append]
      simp only [startsWithList, Bool.and_eq_true] at h ⊢
      exact ⟨h.1, ih bs h.2⟩

/-- Helper: the empty needle occurs in every list. -/
theorem containsList_nil_needle (b : List Char) : containsList [] b = true := by
  induction b with
  | nil => rfl
  | cons c rest ih => simp [containsList, startsWithList]

/-- Helper: an occurrence in the left part survives appending on the right. -/
theorem containsList_append_left (n a b : List Char)
    (h : containsList n a = true) : containsList n (a ++ b) = true := by
  induction a with
  | nil =>
    cases n with
    | nil => simpa using containsList_nil_needle b
    | cons x xs => simp [containsList, startsWithList] at h
  | cons c rest ih =>
    rw [List.cons_append]
    simp only [containsList, Bool.or_eq_true] at h ⊢
    rcases h with h | h
    · refine Or.inl ?_
      rw [← List.cons_append]
      exact startsWithList_extend n (c :: rest) b h
    · exact Or.inr (ih h)

/-- Helper: an occurrence in the right part survives appending on the left. -/
theorem containsList_append_right (n a b : List Char)
    (h : containsList n b = true) : containsList n (a ++ b) = true := by
  induction a with
  | nil => simpa
  | cons c rest ih =>
    rw [List.cons_append]
    simp only [containsList, Bool.or_eq_true]
    exact Or.inr ih

/-- Helper: `strContains` is preserved by appending on the right. -/
theorem strContains_append_left (n a b : String)
    (h : strContains n a = true) : strContains n (a ++ b) = true := by
  unfold strContains at h ⊢
  rw [String.data_append]
  exact containsList_append_left n.data a.data b.data h

/-- Helper: `strContains` is preserved by appending on the left. -/
theorem strContains_append_right (n a b : String)
    (h : strContains n b = true) : strContains n (a ++ b) = true := by
  unfold strContains at h ⊢
  rw [String.data_append]
  exact containsList_append_right n.data a.data b.data h

/-- C5 counterexample: with the verbosity flag set, constructing a message
dialog writes nothing to the diagnostic stream — the constructor starts
its command without going through `dialog::execute`, so the assembled
dialog command is not emitted. -/
theorem message_not_logged :
    verboseZenityFlags.is_verbose = true ∧
    (messageStart verboseZenityFlags "T" "B" Buttons.ok Icon.info).1 = [] :=
  ⟨rfl, rfl⟩

/-- C5 as amended: only commands routed through `dialog::execute` (the
presence probes) are logged — when verbose, exactly the `pfd: `-prefixed
command; the emission alters neither the command handed to the executor
nor the reported result — while the message, notification and file-dialog
constructors emit nothing. -/
theorem verbose_logging :
    (∀ (f g : DialogFlags) (c : String) (env : RunEnv) (launch : Option Nat),
      (execute f c env launch).2 = (execute g c env launch).2) ∧
    (∀ (f : DialogFlags) (c : String) (env : RunEnv) (launch : Option Nat),
      f.is_verbose = true → (execute f c env launch).1 = ["pfd: " ++ c]) ∧
    (∀ (f : DialogFlags) (c : String) (env : RunEnv) (launch : Option Nat),
      f.is_verbose = false → (execute f c env launch).1 = []) ∧
    (∀ (f : DialogFlags) (t x : String) (b : Buttons) (ic : Icon),
      (messageStart f t x b ic).1 = []) ∧
    (∀ (f : DialogFlags) (t m : String) (ic : Icon),
      (notifyStart f t m ic).1 = []) ∧
    (∀ (f : DialogFlags) (ty : FDType) (t dp fil : String) (ms : Bool),
      (fileDialogStart f ty t dp fil ms).1 = []) := by
  refine ⟨?_, ?_, ?_, ?_, ?_, ?_⟩ <;> intros <;>
    simp_all [execute, messageStart, notifyStart, fileDialogStart]

/-- Witness for `verbose_logging` at concrete flags and command. -/
theorem verbose_logging_witness :
    (execute verboseZenityFlags "cmd" { evs := [], pclose_code := 0 } none).1 =
      ["pfd: " ++ "cmd"] :=
  verbose_logging.2.1 verboseZenityFlags "cmd" { evs := [], pclose_code := 0 }
    none rfl

/-- C6 counterexample: with zenity resolved as the helper, the command
assembled for buttons = yes_no_cancel and icon = warning does not contain
the `yesnocancel` button-set token — zenity's yes/no/cancel dialog is
rendered as a `--list` command instead. -/
theorem zenity_yesnocancel_missing :
    is_zenity zenityFlags = true ∧
    strContains (buttons_to_name Buttons.yes_no_cancel)
      (messageCommand zenityFlags "Title" "Text" Buttons.yes_no_cancel
        Icon.warning) = false := by
  constructor
  · rfl
  · decide

/-- C6 as amended: for buttons = yes_no_cancel and icon = warning, the
kdialog command contains both the `yesnocancel` button token and the
`warning` icon token; the zenity command contains the `warning` icon token
(as `--icon-name=dialog-warning`) but renders the button set as a `--list`
Yes/No command without a `yesnocancel` token. -/
theorem message_warning_yesnocancel_tokens (title text : String) :
    strContains (buttons_to_name Buttons.yes_no_cancel)
      (messageCommand kdialogFlags title text Buttons.yes_no_cancel
        Icon.warning) = true ∧
    strContains (get_icon_name Icon.warning)
      (messageCommand kdialogFlags title text Buttons.yes_no_cancel
        Icon.warning) = true ∧
    strContains (get_icon_name Icon.warning)
      (messageCommand zenityFlags title text Buttons.yes_no_cancel
        Icon.warning) = true ∧
    strContains (buttons_to_name Buttons.yes_no_cancel)
      (messageCommand zenityFlags "Title" "Text" Buttons.yes_no_cancel
        Icon.warning) = false := by
  have hk : messageCommand kdialogFlags title text Buttons.yes_no_cancel
      Icon.warning =
      "kdialog --warningyesnocancel " ++ shell_quote text ++ " --title " ++
        shell_quote title := by
    simp [messageCommand, kdialogFlags, is_zenity, is_kdialog, desktop_helper]
  refine ⟨?_, ?_, ?_, by decide⟩
  · rw [hk]
    apply strContains_append_left
    apply strContains_append_left
    apply strContains_append_left
    decide
  · rw [hk]
    apply strContains_append_left
    apply strContains_append_left
    apply strContains_append_left
    decide
  · simp only [messageCommand, zenityFlags, is_zenity, is_kdialog,
      desktop_helper, get_icon_name]
    apply strContains_append_right
    decide

/-- C8: the presence probe runs `which <program> 2>/dev/null` and records
presence exactly when that probe's exit code is 0; helper selection picks
the first detected helper in the order zenity, matedialog, qarma, kdialog,
and falls back to `echo` when none is detected; in particular a probe that
reports only failures drives the selection to the fallback. -/
theorem check_program_and_fallback :
    (∀ (f : DialogFlags) (probe : String → RunEnv × Option Nat) (p : String)
        (env : RunEnv) (launch : Option Nat) (out : String) (code : Int),
      probe ("which " ++ p ++ " 2>/dev/null") = (env, launch) →
      runCommand env launch = some (out, code) →
      check_program f probe p = some (code == 0)) ∧
    (∀ f : DialogFlags, f.has_zenity = true → desktop_helper f = "zenity") ∧
    (∀ f : DialogFlags, f.has_zenity = false → f.has_matedialog = true →
      desktop_helper f = "matedialog") ∧
    (∀ f : DialogFlags, f.has_zenity = false → f.has_matedialog = false →
      f.has_qarma = true → desktop_helper f = "qarma") ∧
    (∀ f : DialogFlags, f.has_zenity = false → f.has_matedialog = false →
      f.has_qarma = false → f.has_kdialog = true →
      desktop_helper f = "kdialog") ∧
    (∀ f : DialogFlags, f.has_zenity = false → f.has_matedialog = false →
      f.has_qarma = false → f.has_kdialog = false →
      desktop_helper f = "echo") ∧
    (∀ (v : Bool) (probe : String → RunEnv × Option Nat) (fl : DialogFlags),
      scanFlags v probe = some fl →
      check_program ⟨v, false, false, false, false⟩ probe "zenity" = some false →
      check_program ⟨v, false, false, false, false⟩ probe "matedialog" = some false →
      check_program ⟨v, false, false, false, false⟩ probe "qarma" = some false →
      check_program ⟨v, false, false, false, false⟩ probe "kdialog" = some false →
      desktop_helper fl = "echo") := by
  refine ⟨?_, ?_, ?_, ?_, ?_, ?_, ?_⟩
  · intro f probe p env launch out code hp hr
    simp [check_program, execute, hp, hr]
  · intro f h
    simp [desktop_helper, h]
  · intro f h1 h2
    simp [desktop_helper, h1, h2]
  · intro f h1 h2 h3
    simp [desktop_helper, h1, h2, h3]
  · intro f h1 h2 h3 h4
    simp [desktop_helper, h1, h2, h3, h4]
  · intro f h1 h2 h3 h4
    simp [desktop_helper, h1, h2, h3, h4]
  · intro v probe fl hscan h1 h2 h3 h4
    simp only [scanFlags] at hscan
    rw [h1, h2, h3, h4] at hscan
    simp at hscan
    rw [← hscan]
    simp [desktop_helper]

/-- Witness for `check_program_and_fallback`: the all-failing probe yields
absence and the fallback helper. -/
theorem check_program_and_fallback_witness :
    check_program noHelperFlags probeAllFail "zenity" = some false ∧
    desktop_helper noHelperFlags = "echo" := by
  obtain ⟨h1, _, _, _, _, _, h7⟩ := check_program_and_fallback
  constructor
  · have := h1 noHelperFlags probeAllFail "zenity"
      { evs := [ReadEvent.eof], pclose_code := 1 } (some 5) "" 1 rfl (by decide)
    simpa using this
  · exact h7 false probeAllFail noHelperFlags (by decide) (by decide)
      (by decide) (by decide) (by decide)

/-- C9: a notification constructed with icon = question behaves exactly as
one constructed with icon = info — the icon is coerced before command
assembly — and the commands assembled for the question icon carry the
`information` token, never the `question` icon token. -/
theorem notify_question_coerced :
    (∀ (f : DialogFlags) (t m : String),
      notifyCommand f t m Icon.question = notifyCommand f t m Icon.info) ∧
    get_icon_name Icon.info = "information" ∧
    strContains (get_icon_name Icon.question)
      (notifyCommand zenityFlags "Title" "Message" Icon.question) = false ∧
    strContains (get_icon_name Icon.question)
      (notifyCommand kdialogFlags "Title" "Message" Icon.question) = false := by
  refine ⟨?_, rfl, by decide, by decide⟩
  intro f t m
  simp [notifyCommand]

/-- C10: file dialogs assemble file-selection arguments only when a
zenity-family helper is detected; otherwise the started command is the
bare helper name — `kdialog` when only kdialog is present, the `echo`
fallback when nothing is. -/
theorem file_dialog_zenity_only (f : DialogFlags) (ty : FDType)
    (title dp fil : String) (ms : Bool) :
    (is_zenity f = false →
      fileDialogCommand f ty title dp fil ms = desktop_helper f) ∧
    (is_zenity f = true →
      fileDialogCommand f ty title dp fil ms =
        desktop_helper f ++ " --file-selection --filename=" ++ shell_quote dp ++
        " --title " ++ shell_quote title ++ " --file-filter=" ++
        shell_quote fil ++ (if ms then " --multiple" else "") ++
        (if ty = FDType.save then " --save" else "")) ∧
    fileDialogCommand kdialogFlags FDType.open_ "T" "" "" false = "kdialog" ∧
    fileDialogCommand noHelperFlags FDType.open_ "T" "" "" false = "echo" := by
  refine ⟨?_, ?_, by decide, by decide⟩
  · intro h
    simp [fileDialogCommand, h]
  · intro h
    by_cases hty : ty = FDType.save <;>
      simp [fileDialogCommand, h, hty, String.append_empty]

/-- Witness for `file_dialog_zenity_only` at concrete flag sets. -/
theorem file_dialog_zenity_only_witness :
    fileDialogCommand kdialogFlags FDType.folder "T" "D" "F" true =
      desktop_helper kdialogFlags ∧
    fileDialogCommand zenityFlags FDType.save "T" "D" "F" true =
      desktop_helper zenityFlags ++ " --file-selection --filename=" ++
        shell_quote "D" ++ " --title " ++ shell_quote "T" ++
        " --file-filter=" ++ shell_quote "F" ++
        (if true then " --multiple" else "") ++
        (if FDType.save = FDType.save then " --save" else "") :=
  ⟨(file_dialog_zenity_only kdialogFlags FDType.folder "T" "D" "F" true).1
      (by decide),
    (file_dialog_zenity_only zenityFlags FDType.save "T" "D" "F" true).2.1
      (by decide)⟩

end PFD
